import Mathlib

/-!
Verification of the script-to-frame-sequence compiler and frame-timing model
of the Tapbudd video generator (src/unnamed/part_001, `generateVideo` and
`createFrame`).

The embedding models the JavaScript values flowing through `generateVideo`
as an inductive `JSValue`; the normalization logic of lines 619-740 as
`extractFrames`/`normalizeScript`; the concat-plan construction of lines
776-794 as `buildConcat`; the post-encode handlers of lines 814-845 as
`afterEncode`; and the theme/scratch-path logic of `createFrame`
(lines 267-272) together with the `SUBJECT_THEMES` table (lines 42-85).
-/

/-- A JavaScript/JSON value as it can appear in the `scriptContent` payload.
`undefined` is JavaScript's `undefined` (a missing object property reads as
`undefined`). Numbers are modelled as integers; every numeric literal that the
generator manipulates is an integer. -/
inductive JSValue where
  | null
  | undefined
  | str (s : String)
  | num (n : Int)
  | bool (b : Bool)
  | obj (fields : List (String × JSValue))
  | arr (elems : List JSValue)

/-- JavaScript property access `v[k]`: on an object, the field's value
(`undefined` when absent); on any other value the properties the generator
reads are absent, hence `undefined`. -/
def getField (v : JSValue) (k : String) : JSValue :=
  match v with
  | .obj fields => (fields.lookup k).getD .undefined
  | _ => .undefined

/-- JavaScript truthiness of a value, as used by the generator's `if` tests:
`null`/`undefined`/`""`/`0` are falsy; every object and array (including
`{}` and `[]`) is truthy. -/
def jsTruthy : JSValue → Bool
  | .null => false
  | .undefined => false
  | .str s => s != ""
  | .num n => n != 0
  | .bool b => b
  | .obj _ => true
  | .arr _ => true

/-- `typeof v === 'object'` in JavaScript: true for `null`, objects and
arrays. -/
def typeofObject : JSValue → Bool
  | .null => true
  | .obj _ => true
  | .arr _ => true
  | _ => false

/-- Whether the value is JavaScript `undefined` (used by `JSON.stringify`
to skip object members). -/
def isUndefV : JSValue → Bool
  | .undefined => true
  | _ => false

/-- JSON string escaping of one character, as `JSON.stringify` performs on
string values. -/
def escapeJSONChar (c : Char) : String :=
  if c = '"' then "\\\""
  else if c = '\\' then "\\\\"
  else if c = '\n' then "\\n"
  else if c = '\t' then "\\t"
  else if c = '\r' then "\\r"
  else String.mk [c]

/-- A JSON string literal for `s`, quotes included. -/
def quoteJSON (s : String) : String :=
  "\"" ++ String.join (s.toList.map escapeJSONChar) ++ "\""

/-- `n` spaces, the indentation unit of `JSON.stringify(v, null, 2)`. -/
def indentStr (n : Nat) : String :=
  String.mk (List.replicate n ' ')

mutual
/-- `JSON.stringify` of a defined value: with `pretty = true` the two-space
indented form `JSON.stringify(v, null, 2)`; with `pretty = false` the
compact form `JSON.stringify(v)`. `ind` is the current indentation level.
`undefined` stringifies to "null" here because inside arrays JavaScript emits
`null` for `undefined` elements; a top-level `undefined` is handled by
`jsonStringify`, and object members that are `undefined` are skipped by
`stringifyMembers` before this function sees them. -/
def stringifyVal (pretty : Bool) (ind : Nat) : JSValue → String
  | .null => "null"
  | .undefined => "null"
  | .bool b => if b then "true" else "false"
  | .num n => toString n
  | .str s => quoteJSON s
  | .obj fields =>
      let ms := stringifyMembers pretty (ind + 2) fields
      if ms.isEmpty then "\x7b\x7d"
      else if pretty then
        "\x7b\n" ++ String.intercalate ",\n" ms ++ "\n" ++ indentStr ind ++ "\x7d"
      else "\x7b" ++ String.intercalate "," ms ++ "\x7d"
  | .arr elems =>
      let ms := stringifyElems pretty (ind + 2) elems
      if ms.isEmpty then "[]"
      else if pretty then
        "[\n" ++ String.intercalate ",\n" ms ++ "\n" ++ indentStr ind ++ "]"
      else "[" ++ String.intercalate "," ms ++ "]"

/-- The rendered `"key": value` members of an object, skipping members whose
value is `undefined`, exactly as `JSON.stringify` does. -/
def stringifyMembers (pretty : Bool) (ind : Nat) : List (String × JSValue) → List String
  | [] => []
  | (k, v) :: rest =>
      if isUndefV v then stringifyMembers pretty ind rest
      else
        ((if pretty then indentStr ind else "") ++ quoteJSON k ++
          (if pretty then ": " else ":") ++ stringifyVal pretty ind v)
          :: stringifyMembers pretty ind rest

/-- The rendered elements of an array. -/
def stringifyElems (pretty : Bool) (ind : Nat) : List JSValue → List String
  | [] => []
  | v :: rest =>
      ((if pretty then indentStr ind else "") ++ stringifyVal pretty ind v)
        :: stringifyElems pretty ind rest
end

/-- Top-level `JSON.stringify`: `undefined` stringifies to JavaScript
`undefined` (not a string), modelled as `none`; every other value yields a
string. -/
def jsonStringify (pretty : Bool) (v : JSValue) : Option String :=
  match v with
  | .undefined => none
  | _ => some (stringifyVal pretty 0 v)

/-- `safeGetText` (src/unnamed/part_001 lines 622-633): resolve a
"text-like" value to a plain string. Strings pass through; `null` and
`undefined` become `""`; an object prefers a truthy `text` field, then a
truthy `script` field (compact-stringified when not itself a string), else
the whole object pretty-printed; arrays (also `typeof 'object'`, with no
`text`/`script` property) are pretty-printed; any other value is coerced
with `String(...)`. -/
def safeGetText (v : JSValue) : String :=
  match v with
  | .str s => s
  | .null => ""
  | .undefined => ""
  | .obj _ =>
      let t := getField v "text"
      if jsTruthy t then
        match t with
        | .str s => s
        | _ => stringifyVal false 0 t
      else
        let sc := getField v "script"
        if jsTruthy sc then
          match sc with
          | .str s => s
          | _ => stringifyVal false 0 sc
        else stringifyVal true 0 v
  | .arr _ => stringifyVal true 0 v
  | .num n => toString n
  | .bool b => if b then "true" else "false"

/-- One entry of the `frames` array built by `generateVideo`
(src/unnamed/part_001 lines 640-740). Raw frames (paragraphs, full-object
dumps, the fallback) carry no `type` field, modelled as `none`; the other
optional fields default to the values an absent JavaScript property gives. -/
structure Frame where
  type : Option String := none
  text : String
  duration : Nat
  animate : Bool := false
  sectionTitle : Option String := none
  index : Option Nat := none
deriving Repr, DecidableEq

/-- The frames one `mainContent` element contributes (src lines 652-689):
a truthy object yields a `section` frame (with default heading
`"Section {index+1}"`, content from its `script` field or the element
itself, and a length bonus of `min 5 (length / 150)` seconds), followed by
an `interactive` frame when the element carries a truthy
`interactiveElement`; any other element yields a `simple` frame of
duration 5. -/
def sectionFramesAt (index : Nat) (sec : JSValue) : List Frame :=
  if jsTruthy sec && typeofObject sec then
    let sectionTitle :=
      if jsTruthy (getField sec "sectionTitle") then safeGetText (getField sec "sectionTitle")
      else "Section " ++ toString (index + 1)
    let sectionContent :=
      if jsTruthy (getField sec "script") then safeGetText (getField sec "script")
      else safeGetText sec
    let extraDuration := min 5 (sectionContent.length / 150)
    let base : Frame :=
      { type := some "section"
        text := "<strong>" ++ sectionTitle ++ "</strong><br/><br/>" ++ sectionContent
        sectionTitle := some sectionTitle
        duration := 7 + extraDuration
        animate := true
        index := some index }
    if jsTruthy (getField sec "interactiveElement") then
      [base,
       { type := some "interactive"
         text := "<strong>Interactive Element:</strong><br/><br/>" ++
           safeGetText (getField sec "interactiveElement")
         duration := 5
         animate := true }]
    else [base]
  else
    [{ type := some "simple", text := safeGetText sec, duration := 5, animate := true }]

/-- The `forEach` over a `mainContent` array (src lines 652-689), with its
running index. -/
def mainContentFrames : Nat → List JSValue → List Frame
  | _, [] => []
  | idx, s :: rest => sectionFramesAt idx s ++ mainContentFrames (idx + 1) rest

/-- The single `content` frame for a non-array `mainContent`
(src lines 690-704): duration `7 + min 5 (length / 200)`. -/
def contentFrame (mc : JSValue) : Frame :=
  let c := safeGetText mc
  { type := some "content", text := c, duration := 7 + min 5 (c.length / 200), animate := true }

/-- The paragraph splitter of src line 726: `split(/\n\n|\\\n\\\n/)`, a
leftmost scan that at each position first tries the two-newline separator
and then the backslash-newline-backslash-newline separator. `acc` holds the
current piece, reversed. -/
def splitParas : List Char → List Char → List String
  | [], acc => [String.mk acc.reverse]
  | '\n' :: '\n' :: rest, acc => String.mk acc.reverse :: splitParas rest []
  | '\\' :: '\n' :: '\\' :: '\n' :: rest, acc => String.mk acc.reverse :: splitParas rest []
  | c :: rest, acc => splitParas rest (c :: acc)

/-- JavaScript `String.prototype.trim`: strip leading and trailing
whitespace. -/
def jsTrim (s : String) : String :=
  String.mk (((s.toList.dropWhile Char.isWhitespace).reverse.dropWhile
    Char.isWhitespace).reverse)

/-- The paragraph frames of src lines 725-732: each paragraph with
non-empty trim becomes an untyped frame of duration 5, holding the
untrimmed paragraph. -/
def paragraphFrames (s : String) : List Frame :=
  ((splitParas s.toList []).filter (fun p => jsTrim p != "")).map
    (fun p => { text := p, duration := 5 })

/-- The `opening` stanza of src lines 640-648: one `opening` frame of
duration 6 when the payload's `opening` is truthy, nothing otherwise. -/
def openingFrames (scriptContent : JSValue) : List Frame :=
  if jsTruthy (getField scriptContent "opening") then
    [{ type := some "opening", text := safeGetText (getField scriptContent "opening")
       duration := 6, animate := true }]
  else []

/-- The `mainContent` stanza of src lines 650-705: for a truthy array, the
per-section frames; for a truthy non-array, one `content` frame; nothing
when falsy. -/
def mainFrames (scriptContent : JSValue) : List Frame :=
  if jsTruthy (getField scriptContent "mainContent") then
    match getField scriptContent "mainContent" with
    | .arr sections => mainContentFrames 0 sections
    | mc => [contentFrame mc]
  else []

/-- The `conclusion` stanza of src lines 707-714: one `conclusion` frame of
duration 6 when the payload's `conclusion` is truthy. -/
def conclusionFrames (scriptContent : JSValue) : List Frame :=
  if jsTruthy (getField scriptContent "conclusion") then
    [{ type := some "conclusion", text := safeGetText (getField scriptContent "conclusion")
       duration := 6, animate := true }]
  else []

/-- The frame-extraction step of `generateVideo` (src lines 636-732),
before the empty-sequence fallback. `none` models a raised exception: when
`scriptContent` is `undefined`, `JSON.stringify` yields `undefined` and the
subsequent `.split` throws a `TypeError` (src lines 721-726). -/
def extractFrames (scriptContent : JSValue) : Option (List Frame) :=
  if jsTruthy scriptContent && typeofObject scriptContent then
    if jsTruthy (getField scriptContent "opening") ||
        jsTruthy (getField scriptContent "mainContent") ||
        jsTruthy (getField scriptContent "conclusion") then
      some (openingFrames scriptContent ++ mainFrames scriptContent ++
        conclusionFrames scriptContent)
    else
      some [{ text := stringifyVal true 0 scriptContent, duration := 10 }]
  else
    match scriptContent with
    | .str s => some (paragraphFrames s)
    | _ =>
      match jsonStringify true scriptContent with
      | none => none
      | some txt => some (paragraphFrames txt)

/-- The fallback frame of src lines 735-740. -/
def fallbackFrame (title : String) : Frame :=
  { text := "No script content available for: " ++ title, duration := 10 }

/-- The whole normalization step of `generateVideo` (src lines 619-740):
frame extraction followed by the empty-sequence fallback. `none` models a
raised exception. -/
def normalizeScript (scriptContent : JSValue) (title : String) : Option (List Frame) :=
  (extractFrames scriptContent).map fun frames =>
    if frames.isEmpty then [fallbackFrame title] else frames

/-- The process-wide scratch directory `TEMP_DIR` of src lines 26-32: a
single constant shared by every invocation of the generator (its concrete
value, `path.join(__dirname, '..', 'temp')`, is host-dependent; only its
uniqueness matters here). -/
def TEMP_DIR : String := "temp"

/-- `String.prototype.padStart(5, '0')`. -/
def padStart5 (s : String) : String :=
  if 5 ≤ s.length then s else String.mk (List.replicate (5 - s.length) '0') ++ s

/-- The scratch image path of `createFrame` (src line 268):
`path.join(TEMP_DIR, "frame_" + frameNum.toString().padStart(5,'0') + ".png")`. -/
def frameImagePath (frameNum : Nat) : String :=
  TEMP_DIR ++ "/frame_" ++ padStart5 (toString frameNum) ++ ".png"

/-- The concat manifest path of src line 777:
`path.join(TEMP_DIR, 'concat.txt')`. -/
def concatManifestPath : String :=
  TEMP_DIR ++ "/concat.txt"

/-- The content record one generation job works on, as destructured by
`generateVideo` (src lines 606-611). -/
structure Job where
  title : String
  subject : String
  scriptContent : JSValue
  id : Nat

/-- The scratch image path a job uses for its frame number `frameNum`: in
the render loop (src lines 750-768) the path passed to `createFrame` is
computed from the loop index alone — nothing of the job's identity (id,
title, timestamp) enters it. -/
def jobFramePath (_job : Job) (frameNum : Nat) : String :=
  frameImagePath frameNum

/-- The concat manifest path a job uses (src line 777): the fixed constant,
independent of the job. -/
def jobManifestPath (_job : Job) : String :=
  concatManifestPath

/-- The render loop of src lines 749-769: frame `i` is rasterized to
`frameImagePath i` and paired with its duration in `frameFiles`. -/
def toFrameFiles (frames : List Frame) : List (String × Nat) :=
  frames.enum.map fun p => (frameImagePath p.1, p.2.duration)

/-- The concat manifest construction of src lines 776-791, one list entry
per `file '...'` reference: each frame's path is appended once per second
of its duration, tagged with the fixed 1-second unit (`some 1`); when the
list of frames is non-empty, one trailing path-only reference (`none`) to
the last frame's image is appended. -/
def buildConcat (frameFiles : List (String × Nat)) : List (String × Option Nat) :=
  let entries := frameFiles.foldl
    (fun acc f => acc ++ List.replicate f.2 (f.1, some (1 : Nat))) []
  match frameFiles.getLast? with
  | some last => entries ++ [(last.1, none)]
  | none => entries

/-- One subject theme of the `SUBJECT_THEMES` table (src lines 42-85). -/
structure Theme where
  color : String
  gradient : List String
  icon : String
  background : String
  bgPattern : String
deriving Repr, DecidableEq

/-- The `default` theme (src lines 78-84). -/
def themeDefault : Theme :=
  { color := "#607D8B"
    gradient := ["#607D8B", "#90A4AE"]
    icon := "📚"
    background := "linear-gradient(135deg, #607D8B 0%, #90A4AE 100%)"
    bgPattern := "default" }

/-- The fixed `SUBJECT_THEMES` table (src lines 42-85). -/
def SUBJECT_THEMES : List (String × Theme) :=
  [("visual-arts",
    { color := "#FF5722"
      gradient := ["#FF5722", "#FFA000"]
      icon := "🎨"
      background := "linear-gradient(135deg, #FF5722 0%, #FF9800 100%)"
      bgPattern := "art" }),
   ("performing-arts",
    { color := "#9C27B0"
      gradient := ["#9C27B0", "#D500F9"]
      icon := "🎭"
      background := "linear-gradient(135deg, #9C27B0 0%, #AA00FF 100%)"
      bgPattern := "music" }),
   ("coding",
    { color := "#2196F3"
      gradient := ["#2196F3", "#03A9F4"]
      icon := "💻"
      background := "linear-gradient(135deg, #2196F3 0%, #00BCD4 100%)"
      bgPattern := "code" }),
   ("financial-literacy",
    { color := "#4CAF50"
      gradient := ["#4CAF50", "#8BC34A"]
      icon := "💰"
      background := "linear-gradient(135deg, #4CAF50 0%, #8BC34A 100%)"
      bgPattern := "finance" }),
   ("science",
    { color := "#FFC107"
      gradient := ["#FFC107", "#FFEB3B"]
      icon := "🔬"
      background := "linear-gradient(135deg, #FFC107 0%, #FFD54F 100%)"
      bgPattern := "science" }),
   ("default", themeDefault)]

/-- `replace(/\s+/g, '-')`: replace each maximal run of whitespace with a
single hyphen. `prevWs` records whether the previous character was part of
a whitespace run already replaced. -/
def hyphenateWs : Bool → List Char → List Char
  | _, [] => []
  | prevWs, c :: rest =>
      if c.isWhitespace then
        if prevWs then hyphenateWs true rest
        else '-' :: hyphenateWs true rest
      else c :: hyphenateWs false rest

/-- The subject key of src line 271:
`subject.toLowerCase().replace(/\s+/g, '-')`. -/
def normalizeSubjectKey (subject : String) : String :=
  String.mk (hyphenateWs false (subject.toList.map Char.toLower))

/-- The theme resolution prefix of `createFrame` (src lines 267-272). The
subject is `none` when the content record carries no subject; on that input
`subject.toLowerCase()` throws a `TypeError`, modelled as `none` — the
frame is not rendered. Otherwise the normalized key is looked up in
`SUBJECT_THEMES`, falling back to the default theme. -/
def resolveTheme (subject : Option String) : Option Theme :=
  match subject with
  | none => none
  | some s => some ((SUBJECT_THEMES.lookup (normalizeSubjectKey s)).getD themeDefault)

/-- Outcome of the external encoder invocation (src lines 817 and 837). -/
inductive EncodeOutcome where
  | success
  | failure (err : String)

/-- The completion handlers of src lines 814-845. On `end`: every frame
image and the manifest are unlinked, each in its own try/catch whose
failure is only logged, and the promise resolves with the output path; the
returned list holds the successfully deleted files (`unlinkFails` says
which individual deletions fail). On `error`: the promise rejects with the
encoder's error and nothing is deleted. -/
def afterEncode (outcome : EncodeOutcome) (frameFiles : List (String × Nat))
    (manifestPath outputPath : String) (unlinkFails : String → Bool) :
    List String × Except String String :=
  match outcome with
  | .success =>
      ((frameFiles.map Prod.fst ++ [manifestPath]).filter (fun p => !unlinkFails p),
       .ok outputPath)
  | .failure err => ([], .error err)

/-- Test payload of end-to-end scenario 1 of the specification. -/
def demoPayload : JSValue :=
  .obj [("opening", .str "Hi"),
        ("mainContent", .arr [.obj [("sectionTitle", .str "A"), ("script", .str "Body")]]),
        ("conclusion", .str "Bye")]

/-- Whether a value is a JavaScript object proper (the shape of a *Section*
in the structured payload form). -/
def isObjV : JSValue → Bool
  | .obj _ => true
  | _ => false

/-- The block kinds one object-shaped `mainContent` section contributes: a
`section` block, followed by an `interactive` block exactly when the
section carries a truthy `interactiveElement`. -/
def sectionKinds (s : JSValue) : List (Option String) :=
  if jsTruthy (getField s "interactiveElement") then [some "section", some "interactive"]
  else [some "section"]

/-- The duration table the normalization code actually implements, per
block kind: opening and conclusion 6, interactive 5, simple 5; section
`7 + min 5 (len/150)` measured on the resolved section content `c` (the
part of the display text after the heading markup); content
`7 + min 5 (len/200)` measured on the whole display text; untyped raw
blocks 5 (paragraph) or 10 (full-object dump, fallback). -/
def DurSpec (f : Frame) : Prop :=
  match f.type with
  | some "opening" => f.duration = 6
  | some "conclusion" => f.duration = 6
  | some "interactive" => f.duration = 5
  | some "simple" => f.duration = 5
  | some "content" => f.duration = 7 + min 5 (f.text.length / 200)
  | some "section" =>
      ∃ t c, f.text = "<strong>" ++ t ++ "</strong><br/><br/>" ++ c ∧
        f.duration = 7 + min 5 (c.length / 150)
  | _ => f.duration = 5 ∨ f.duration = 10

/-! ## Claim theorems -/

/-- Claim C10: for the structured payload with an empty `mainContent` array
and no opening and no conclusion, normalization takes the structured branch
(an empty array is truthy), yields zero blocks from it, and substitutes
exactly one fallback block `"No script content available for: {title}"`
with duration 10 — not a raw pretty-printed dump of the object. -/
theorem claim_C10_empty_mainContent_fallback (title : String) :
    extractFrames (.obj [("mainContent", .arr [])]) = some [] ∧
    normalizeScript (.obj [("mainContent", .arr [])]) title =
      some [{ text := "No script content available for: " ++ title, duration := 10 }] :=
  ⟨rfl, rfl⟩

/-- Claim C7 (code bug): the scratch names are not namespaced per job —
every job writes its frame number `n` to the same image path and uses the
same concat manifest path, so any two concurrently running jobs share
scratch file names instead of keeping them disjoint. -/
theorem claim_C7_scratch_paths_shared (j1 j2 : Job) (frameNum : Nat) :
    jobFramePath j1 frameNum = jobFramePath j2 frameNum ∧
    jobManifestPath j1 = jobManifestPath j2 :=
  ⟨rfl, rfl⟩

/-- Claim C1 (counterexample): for the `undefined` payload and title
"Demo", normalization raises (`JSON.stringify(undefined)` is `undefined`
and `.split` throws), modelled as `none` — it does not produce a block
sequence. -/
theorem claim_C1_counterexample : normalizeScript .undefined "Demo" = none := rfl

/-- Claim C6 (counterexample): a `null` payload with title "X" does not
yield the fallback block — it yields one raw block holding the stringified
text "null" with duration 5. -/
theorem claim_C6_counterexample :
    normalizeScript .null "X" = some [{ text := "null", duration := 5 }] ∧
    normalizeScript .null "X" ≠ some [fallbackFrame "X"] :=
  ⟨rfl, by decide⟩

/-- Claim C3 (counterexample): a scalar `mainContent` element yields a
`simple` block with duration 5, not the claimed `7 + min 5 (len/150)`. -/
theorem claim_C3_counterexample :
    normalizeScript (.obj [("mainContent", .arr [.str "hi"])]) "T" =
      some [{ type := some "simple", text := "hi", duration := 5, animate := true }] ∧
    (5 : Nat) ≠ 7 + min 5 (String.length "hi" / 150) :=
  ⟨rfl, by decide⟩

/-- Claim C4 (counterexample): for the scenario payload the concat plan has
20 entries in total, i.e. 19 before the trailing duplicate — not the
claimed 8 (durations 6+7+6 = 19 one-second repetitions). -/
theorem claim_C4_counterexample :
    (buildConcat (toFrameFiles ((normalizeScript demoPayload "Demo").getD []))).length = 20 ∧
    (20 : Nat) ≠ 8 + 1 :=
  ⟨by decide, by decide⟩

/-- Claim C4 (amended): the scenario payload
`{opening:"Hi", mainContent:[{sectionTitle:"A", script:"Body"}],
conclusion:"Bye"}` with title "Demo" produces exactly 3 blocks — opening
"Hi", section combining "A" and "Body", conclusion "Bye" — with durations
[6, 7, 6] and 19 concat entries before the trailing duplicate. -/
theorem claim_C4_demo_pipeline :
    normalizeScript demoPayload "Demo" =
      some [{ type := some "opening", text := "Hi", duration := 6, animate := true },
            { type := some "section", text := "<strong>A</strong><br/><br/>Body",
              duration := 7, animate := true, sectionTitle := some "A", index := some 0 },
            { type := some "conclusion", text := "Bye", duration := 6, animate := true }] ∧
    ((normalizeScript demoPayload "Demo").getD []).map Frame.duration = [6, 7, 6] ∧
    (buildConcat (toFrameFiles ((normalizeScript demoPayload "Demo").getD []))).length =
      19 + 1 :=
  ⟨by decide, by decide, by decide⟩

/-- Claim C9 (counterexample): a missing (undefined) subject makes frame
rendering fail — `subject.toLowerCase()` throws, modelled as `none` — so a
missing subject is not tolerated. -/
theorem claim_C9_counterexample :
    resolveTheme none = none ∧ resolveTheme none ≠ some themeDefault :=
  ⟨rfl, by decide⟩

/-- Claim C9 (amended): for every string subject, frame rendering resolves
a theme by case/whitespace-normalizing the subject (lowercase, whitespace
runs replaced by hyphens) against the fixed `SUBJECT_THEMES` table, falling
back to the default theme for unknown subjects; an absent (undefined)
subject, however, makes rendering fail. -/
theorem claim_C9_theme_resolution :
    (∀ subject : String, ∃ t : Theme,
      resolveTheme (some subject) = some t ∧
      (SUBJECT_THEMES.lookup (normalizeSubjectKey subject) = some t ∨
        (SUBJECT_THEMES.lookup (normalizeSubjectKey subject) = none ∧ t = themeDefault))) ∧
    resolveTheme none = none := by
  refine ⟨fun subject => ?_, rfl⟩
  cases h : SUBJECT_THEMES.lookup (normalizeSubjectKey subject) with
  | some t => exact ⟨t, by simp [resolveTheme, h], Or.inl rfl⟩
  | none => exact ⟨themeDefault, by simp [resolveTheme, h], Or.inr ⟨rfl, rfl⟩⟩

/-- Unrolling the `forEach` accumulation of `buildConcat` into one
flat-map. -/
theorem concat_foldl_eq (l : List (String × Nat)) (init : List (String × Option Nat)) :
    l.foldl (fun acc f => acc ++ List.replicate f.2 (f.1, some (1 : Nat))) init =
      init ++ l.flatMap (fun pd => List.replicate pd.2 (pd.1, some 1)) := by
  induction l generalizing init with
  | nil => simp
  | cons p rest ih => simp [List.foldl_cons, ih, List.flatMap_cons, List.append_assoc]

/-- Closed form of `buildConcat` on a non-empty frame list. -/
theorem buildConcat_eq (l : List (String × Nat)) (last : String × Nat)
    (hlast : l.getLast? = some last) :
    buildConcat l =
      l.flatMap (fun pd => List.replicate pd.2 (pd.1, some 1)) ++ [(last.1, none)] := by
  unfold buildConcat
  rw [hlast, concat_foldl_eq]
  simp

/-- Claim C5: for every non-empty sequence of rendered frames, the concat
plan is the frames' image paths each repeated once per second of duration
(at least one repetition per frame since durations are ≥ 1), in frame
order, followed by exactly one trailing reference to the last frame's
image; its entry count is the sum of the durations plus 1. -/
theorem claim_C5_concat_plan (l : List (String × Nat)) (hne : l ≠ [])
    (hdur : ∀ pd ∈ l, 1 ≤ pd.2) :
    ∃ last, l.getLast? = some last ∧
      buildConcat l = l.flatMap (fun pd => List.replicate pd.2 (pd.1, some (1 : Nat))) ++
        [(last.1, none)] ∧
      (buildConcat l).length = (l.map (fun pd => pd.2)).sum + 1 ∧
      ∀ pd ∈ l, (pd.1, some (1 : Nat)) ∈ buildConcat l := by
  obtain ⟨last, hlast⟩ := Option.isSome_iff_exists.mp (List.getLast?_isSome.mpr hne)
  have heq := buildConcat_eq l last hlast
  refine ⟨last, hlast, heq, ?_, ?_⟩
  · rw [heq]
    simp [List.length_append, List.length_flatMap, List.length_replicate,
      Function.comp_def]
  · intro pd hpd
    rw [heq]
    refine List.mem_append_left _ (List.mem_flatMap.mpr ⟨pd, hpd, ?_⟩)
    exact List.mem_replicate.mpr ⟨by have := hdur pd hpd; omega, rfl⟩

/-- Witness for claim C5 at a concrete two-frame input. -/
theorem claim_C5_concat_plan_witness :
    ∃ last, ([("a", 2), ("b", 1)] : List (String × Nat)).getLast? = some last ∧
      buildConcat [("a", 2), ("b", 1)] =
        ([("a", 2), ("b", 1)] : List (String × Nat)).flatMap
          (fun pd => List.replicate pd.2 (pd.1, some (1 : Nat))) ++ [(last.1, none)] ∧
      (buildConcat [("a", 2), ("b", 1)]).length =
        (([("a", 2), ("b", 1)] : List (String × Nat)).map (fun pd => pd.2)).sum + 1 ∧
      ∀ pd ∈ ([("a", 2), ("b", 1)] : List (String × Nat)),
        (pd.1, some (1 : Nat)) ∈ buildConcat [("a", 2), ("b", 1)] :=
  claim_C5_concat_plan [("a", 2), ("b", 1)] (by decide) (by decide)

/-- Claim C8: on encoder success the promise resolves with the output path
for every possible pattern of individual deletion failures, every frame
image and the manifest whose deletion does not individually fail is
deleted (and with no deletion failures, all of them are); on encoder
failure the error propagates and nothing is deleted. -/
theorem claim_C8_cleanup (frameFiles : List (String × Nat))
    (manifestPath outputPath err : String) (unlinkFails : String → Bool) :
    (afterEncode .success frameFiles manifestPath outputPath unlinkFails).2 =
      .ok outputPath ∧
    (∀ p ∈ frameFiles.map Prod.fst ++ [manifestPath], unlinkFails p = false →
      p ∈ (afterEncode .success frameFiles manifestPath outputPath unlinkFails).1) ∧
    (afterEncode .success frameFiles manifestPath outputPath (fun _ => false)).1 =
      frameFiles.map Prod.fst ++ [manifestPath] ∧
    afterEncode (.failure err) frameFiles manifestPath outputPath unlinkFails =
      ([], .error err) := by
  refine ⟨rfl, ?_, ?_, rfl⟩
  · intro p hp hfail
    exact List.mem_filter.mpr ⟨hp, by simp [hfail]⟩
  · simp [afterEncode]

/-- Witness for claim C8 at a concrete one-frame input with no deletion
failures. -/
theorem claim_C8_cleanup_witness :
    "temp/f0" ∈ (afterEncode .success [("temp/f0", 6)] "temp/concat.txt" "out.mp4"
      (fun _ => false)).1 :=
  (claim_C8_cleanup [("temp/f0", 6)] "temp/concat.txt" "out.mp4" "boom"
    (fun _ => false)).2.1 "temp/f0" (by decide) rfl

/-- Every payload other than `undefined` extracts to some frame list
without raising. -/
theorem extractFrames_isSome (sc : JSValue) (h : sc ≠ .undefined) :
    ∃ l, extractFrames sc = some l := by
  cases sc with
  | undefined => exact absurd rfl h
  | null => exact ⟨_, rfl⟩
  | num n =>
      refine ⟨paragraphFrames (toString n), ?_⟩
      unfold extractFrames
      rw [if_neg (by simp [typeofObject])]
      rfl
  | bool b =>
      refine ⟨paragraphFrames (stringifyVal true 0 (.bool b)), ?_⟩
      unfold extractFrames
      rw [if_neg (by simp [typeofObject])]
      rfl
  | str s =>
      refine ⟨paragraphFrames s, ?_⟩
      unfold extractFrames
      rw [if_neg (by simp [typeofObject])]
  | obj fields =>
      unfold extractFrames
      split
      · split
        · exact ⟨_, rfl⟩
        · exact ⟨_, rfl⟩
      · exact ⟨_, rfl⟩
  | arr elems =>
      unfold extractFrames
      split
      · split
        · exact ⟨_, rfl⟩
        · exact ⟨_, rfl⟩
      · exact ⟨_, rfl⟩

/-- Claim C1 (amended): for every payload other than `undefined` and any
title, normalization never raises and produces at least one block; the
`undefined` payload raises. -/
theorem claim_C1_total_nonempty (sc : JSValue) (title : String) (h : sc ≠ .undefined) :
    ∃ frames, normalizeScript sc title = some frames ∧ frames ≠ [] := by
  obtain ⟨l, hl⟩ := extractFrames_isSome sc h
  refine ⟨if l.isEmpty then [fallbackFrame title] else l, ?_, ?_⟩
  · unfold normalizeScript
    rw [hl]
    rfl
  · by_cases hemp : l.isEmpty = true
    · simp [hemp]
    · rw [if_neg hemp]
      intro hnil
      subst hnil
      exact hemp rfl

/-- Witness for claim C1 at the concrete numeric payload 7. -/
theorem claim_C1_total_nonempty_witness :
    ∃ frames, normalizeScript (.num 7) "T" = some frames ∧ frames ≠ [] :=
  claim_C1_total_nonempty (.num 7) "T" (fun h => nomatch h)

/-- Claim C6 (amended): whenever the extraction steps yield zero blocks,
exactly one fallback block `"No script content available for: {title}"`
(duration 10) is substituted; a `null` payload, however, does not reach the
fallback — it yields one raw block "null" — and an `undefined` payload
raises. -/
theorem claim_C6_fallback (sc : JSValue) (title : String)
    (h : extractFrames sc = some []) :
    normalizeScript sc title =
      some [{ text := "No script content available for: " ++ title, duration := 10 }] ∧
    (∀ t : String, normalizeScript .null t = some [{ text := "null", duration := 5 }]) ∧
    normalizeScript .undefined title = none := by
  refine ⟨?_, fun t => rfl, rfl⟩
  unfold normalizeScript
  rw [h]
  rfl

/-- Witness for claim C6 at the empty-string payload, which extracts to
zero blocks. -/
theorem claim_C6_fallback_witness :
    normalizeScript (.str "") "X" =
      some [{ text := "No script content available for: " ++ "X", duration := 10 }] ∧
    (∀ t : String, normalizeScript .null t = some [{ text := "null", duration := 5 }]) ∧
    normalizeScript .undefined "X" = none :=
  claim_C6_fallback (.str "") "X" (by decide)

/-- The block kinds an object-shaped section's frames carry are exactly
`sectionKinds`. -/
theorem sectionFramesAt_types (idx : Nat) (fields : List (String × JSValue)) :
    (sectionFramesAt idx (.obj fields)).map Frame.type = sectionKinds (.obj fields) := by
  cases hq : jsTruthy (getField (JSValue.obj fields) "interactiveElement") <;>
    simp only [sectionFramesAt, sectionKinds, hq] <;>
    simp [jsTruthy, typeofObject]

/-- For a `mainContent` array of object-shaped sections, the emitted block
kinds are the per-section kind groups in input order, independently of the
running index. -/
theorem mainContentFrames_types : ∀ (sections : List JSValue) (idx : Nat),
    (∀ s ∈ sections, isObjV s = true) →
    (mainContentFrames idx sections).map Frame.type = sections.flatMap sectionKinds := by
  intro sections
  induction sections with
  | nil => intro idx _; rfl
  | cons s rest ih =>
      intro idx h
      have hs : isObjV s = true := h s (List.mem_cons_self s rest)
      have hrest : ∀ x ∈ rest, isObjV x = true := fun x hx => h x (List.mem_cons_of_mem s hx)
      cases s with
      | obj fields =>
          simp only [mainContentFrames, List.map_append, List.flatMap_cons,
            sectionFramesAt_types, ih (idx + 1) hrest]
      | null => simp [isObjV] at hs
      | undefined => simp [isObjV] at hs
      | str s => simp [isObjV] at hs
      | num n => simp [isObjV] at hs
      | bool b => simp [isObjV] at hs
      | arr l => simp [isObjV] at hs

/-- Claim C2: for every structured payload whose `opening` resolves to a
non-empty string, whose `mainContent` is an array of at least one
object-shaped section, and whose `conclusion` resolves to a non-empty
string, the normalizer emits the opening block first, the conclusion block
last, and per input section, in input order, exactly one section block —
immediately followed by its interactive block exactly when the section
carries a truthy `interactiveElement` — so an interactive block never
precedes its parent section block. -/
theorem claim_C2_structured_order (fl : List (String × JSValue)) (title : String)
    (so sc : String) (sections : List JSValue)
    (hop : getField (.obj fl) "opening" = .str so) (hso : so ≠ "")
    (hmc : getField (.obj fl) "mainContent" = .arr sections) (_hne : sections ≠ [])
    (hco : getField (.obj fl) "conclusion" = .str sc) (hsc : sc ≠ "")
    (hsecs : ∀ s ∈ sections, isObjV s = true) :
    ∃ frames, normalizeScript (.obj fl) title = some frames ∧
      frames.map Frame.type =
        some "opening" :: (sections.flatMap sectionKinds ++ [some "conclusion"]) := by
  have h1 : openingFrames (JSValue.obj fl) =
      [{ type := some "opening", text := so, duration := 6, animate := true }] := by
    unfold openingFrames
    rw [hop]
    simp [jsTruthy, hso, safeGetText]
  have h2 : mainFrames (JSValue.obj fl) = mainContentFrames 0 sections := by
    unfold mainFrames
    rw [hmc]
    rfl
  have h3 : conclusionFrames (JSValue.obj fl) =
      [{ type := some "conclusion", text := sc, duration := 6, animate := true }] := by
    unfold conclusionFrames
    rw [hco]
    simp [jsTruthy, hsc, safeGetText]
  have hex : extractFrames (JSValue.obj fl) =
      some (openingFrames (JSValue.obj fl) ++ mainFrames (JSValue.obj fl) ++
        conclusionFrames (JSValue.obj fl)) := by
    unfold extractFrames
    rw [hop]
    simp [jsTruthy, typeofObject, hso]
  refine ⟨[{ type := some "opening", text := so, duration := 6, animate := true }] ++
    mainContentFrames 0 sections ++
    [{ type := some "conclusion", text := sc, duration := 6, animate := true }], ?_, ?_⟩
  · unfold normalizeScript
    rw [hex, h1, h2, h3]
    rfl
  · simp only [List.map_append, List.map_cons, List.map_nil,
      mainContentFrames_types sections 0 hsecs]
    simp

/-- Witness for claim C2 at the scenario payload. -/
theorem claim_C2_structured_order_witness :
    ∃ frames, normalizeScript demoPayload "Demo" = some frames ∧
      frames.map Frame.type =
        some "opening" ::
          (([JSValue.obj [("sectionTitle", .str "A"), ("script", .str "Body")]].flatMap
              sectionKinds) ++ [some "conclusion"]) :=
  claim_C2_structured_order
    [("opening", .str "Hi"),
     ("mainContent", .arr [.obj [("sectionTitle", .str "A"), ("script", .str "Body")]]),
     ("conclusion", .str "Bye")]
    "Demo" "Hi" "Bye" [.obj [("sectionTitle", .str "A"), ("script", .str "Body")]]
    rfl (by decide) rfl (List.cons_ne_nil _ _) rfl (by decide) (by decide)

/-- Every frame an object-or-array section element contributes satisfies
the implemented duration table. -/
theorem durSpec_sectionFramesAt (idx : Nat) (sec : JSValue) (f : Frame)
    (hf : f ∈ sectionFramesAt idx sec) : DurSpec f := by
  unfold sectionFramesAt at hf
  split at hf
  · by_cases hie : jsTruthy (getField sec "interactiveElement") = true
    · rw [if_pos hie] at hf
      simp only [List.mem_cons, List.mem_singleton, List.not_mem_nil, or_false] at hf
      rcases hf with hf | hf
      · subst hf
        exact ⟨_, _, rfl, rfl⟩
      · subst hf
        exact rfl
    · rw [if_neg hie] at hf
      simp only [List.mem_singleton] at hf
      subst hf
      exact ⟨_, _, rfl, rfl⟩
  · simp only [List.mem_singleton] at hf
    subst hf
    exact rfl

/-- Every frame the `mainContent` array loop contributes satisfies the
implemented duration table. -/
theorem durSpec_mainContentFrames : ∀ (l : List JSValue) (idx : Nat) (f : Frame),
    f ∈ mainContentFrames idx l → DurSpec f := by
  intro l
  induction l with
  | nil => intro idx f hf; simp [mainContentFrames] at hf
  | cons s rest ih =>
      intro idx f hf
      simp only [mainContentFrames] at hf
      rcases List.mem_append.mp hf with h | h
      · exact durSpec_sectionFramesAt idx s f h
      · exact ih (idx + 1) f h

/-- Every paragraph frame satisfies the implemented duration table. -/
theorem durSpec_paragraphFrames (s : String) (f : Frame)
    (hf : f ∈ paragraphFrames s) : DurSpec f := by
  unfold paragraphFrames at hf
  obtain ⟨p, _, rfl⟩ := List.mem_map.mp hf
  exact Or.inl rfl

/-- Every frame of the `opening` stanza satisfies the implemented duration
table. -/
theorem durSpec_openingFrames (v : JSValue) (f : Frame)
    (hf : f ∈ openingFrames v) : DurSpec f := by
  unfold openingFrames at hf
  split at hf
  · simp only [List.mem_singleton] at hf
    subst hf
    exact rfl
  · simp at hf

/-- Every frame of the `mainContent` stanza satisfies the implemented
duration table. -/
theorem durSpec_mainFrames (v : JSValue) (f : Frame)
    (hf : f ∈ mainFrames v) : DurSpec f := by
  unfold mainFrames at hf
  split at hf
  · split at hf
    · exact durSpec_mainContentFrames _ 0 f hf
    · simp only [List.mem_singleton] at hf
      subst hf
      exact rfl
  · simp at hf

/-- Every frame of the `conclusion` stanza satisfies the implemented
duration table. -/
theorem durSpec_conclusionFrames (v : JSValue) (f : Frame)
    (hf : f ∈ conclusionFrames v) : DurSpec f := by
  unfold conclusionFrames at hf
  split at hf
  · simp only [List.mem_singleton] at hf
    subst hf
    exact rfl
  · simp at hf

/-- Every frame the extraction step yields satisfies the implemented
duration table. -/
theorem durSpec_extract (sc : JSValue) (l : List Frame) (f : Frame)
    (he : extractFrames sc = some l) (hf : f ∈ l) : DurSpec f := by
  unfold extractFrames at he
  split at he
  · split at he
    · injection he with he
      subst he
      rcases List.mem_append.mp hf with h | h
      · rcases List.mem_append.mp h with h' | h'
        · exact durSpec_openingFrames _ f h'
        · exact durSpec_mainFrames _ f h'
      · exact durSpec_conclusionFrames _ f h
    · injection he with he
      subst he
      simp only [List.mem_singleton] at hf
      subst hf
      exact Or.inr rfl
  · split at he
    · injection he with he
      subst he
      exact durSpec_paragraphFrames _ f hf
    · split at he
      · cases he
      · injection he with he
        subst he
        exact durSpec_paragraphFrames _ f hf

/-- Claim C3 (amended): every block the pipeline produces follows the
duration table the code implements — opening 6, conclusion 6, interactive
5, simple 5, section `7 + min 5 (floor (len content / 150))` measured on
the resolved section content (the display text after the heading markup),
content `7 + min 5 (floor (len / 200))`, raw paragraph 5, full-object dump
and fallback 10. -/
theorem claim_C3_duration_table (sc : JSValue) (title : String) (frames : List Frame)
    (f : Frame) (hn : normalizeScript sc title = some frames) (hf : f ∈ frames) :
    DurSpec f := by
  unfold normalizeScript at hn
  cases he : extractFrames sc with
  | none => rw [he] at hn; cases hn
  | some l =>
      rw [he] at hn
      have hn' : (if l.isEmpty then [fallbackFrame title] else l) = frames := by
        simpa using hn
      subst hn'
      by_cases hemp : l.isEmpty = true
      · rw [if_pos hemp] at hf
        simp only [List.mem_singleton] at hf
        subst hf
        exact Or.inr rfl
      · rw [if_neg hemp] at hf
        exact durSpec_extract sc l f he hf

/-- Witness for claim C3 at the scenario payload's opening frame. -/
theorem claim_C3_duration_table_witness :
    DurSpec { type := some "opening", text := "Hi", duration := 6, animate := true } :=
  claim_C3_duration_table demoPayload "Demo"
    [{ type := some "opening", text := "Hi", duration := 6, animate := true },
     { type := some "section", text := "<strong>A</strong><br/><br/>Body", duration := 7,
       animate := true, sectionTitle := some "A", index := some 0 },
     { type := some "conclusion", text := "Bye", duration := 6, animate := true }]
    { type := some "opening", text := "Hi", duration := 6, animate := true }
    (by decide) (by decide)
